import Mathlib

/-!
Verification of the admissions/chemotherapy planner (`src/app.py`) against its
natural-language specification.

The Python application is shallowly embedded: every numeric column (`REAL` in
the SQLite schema, `float` in Python) is modelled as a real number `ℝ`, every
nullable column as an `Option`, and every database table as a Lean list whose
order mirrors SQLite rowid (insertion) order.  Python truthiness on a nullable
float (`if not weight_kg`) is modelled as "the value is absent or equal to 0".
Python's `round(x, 1)` is modelled as rounding `10*x` to the nearest integer
and dividing by 10; Python uses round-half-to-even, which agrees with
round-to-nearest everywhere off exact ties (and all rounded quantities in the
claims are irrational multiples of square roots or integers, never ties).
-/

namespace AdmissionsPlanner

open Classical

/-! ## Regimen templates (`seed_chemo_templates`, app.py lines 184-252)

A template payload is a JSON list of dicts with keys `drug`, `mode`, and —
depending on the mode — `dose_per_m2`, `dose_per_kg`, `fixed_dose_mg`, and an
optional `max_mg` cap.  Absent keys are modelled as `none` (for `drug` and
`mode` the Python code reads them with defaults `"?"` and `""`; every seeded
rule supplies both, so they are plain fields here). -/

structure DrugRule where
  drug : String
  mode : String
  dose_per_m2 : Option ℝ := none
  dose_per_kg : Option ℝ := none
  fixed_dose_mg : Option ℝ := none
  max_mg : Option ℝ := none

/-- The built-in templates seeded at startup (`seed_chemo_templates`). -/
def seed_chemo_templates : List (String × List DrugRule) :=
  [ ("CHOP",
      [ { drug := "Cyclophosphamide", mode := "per_m2", dose_per_m2 := some 750 },
        { drug := "Doxorubicin", mode := "per_m2", dose_per_m2 := some 50 },
        { drug := "Vincristine", mode := "per_m2", dose_per_m2 := some 1.4, max_mg := some 2 },
        { drug := "Prednisolone", mode := "fixed", fixed_dose_mg := some 100 } ]),
    ("R-CHOP",
      [ { drug := "Rituximab", mode := "per_kg", dose_per_kg := some 375 },
        { drug := "Cyclophosphamide", mode := "per_m2", dose_per_m2 := some 750 },
        { drug := "Doxorubicin", mode := "per_m2", dose_per_m2 := some 50 },
        { drug := "Vincristine", mode := "per_m2", dose_per_m2 := some 1.4, max_mg := some 2 },
        { drug := "Prednisolone", mode := "fixed", fixed_dose_mg := some 100 } ]),
    ("ICE",
      [ { drug := "Ifosfamide", mode := "per_m2", dose_per_m2 := some 5000 },
        { drug := "Carboplatin", mode := "per_m2", dose_per_m2 := some 400 },
        { drug := "Etoposide", mode := "per_m2", dose_per_m2 := some 100 } ]),
    ("BV-AVD",
      [ { drug := "Brentuximab vedotin", mode := "per_kg", dose_per_kg := some 1.2 },
        { drug := "Doxorubicin", mode := "per_m2", dose_per_m2 := some 25 },
        { drug := "Vinblastine", mode := "per_m2", dose_per_m2 := some 6 },
        { drug := "Dacarbazine", mode := "per_m2", dose_per_m2 := some 375 } ]),
    ("Pola-R-CHP",
      [ { drug := "Polatuzumab vedotin", mode := "per_kg", dose_per_kg := some 1.8 },
        { drug := "Rituximab", mode := "per_kg", dose_per_kg := some 375 },
        { drug := "Cyclophosphamide", mode := "per_m2", dose_per_m2 := some 750 },
        { drug := "Doxorubicin", mode := "per_m2", dose_per_m2 := some 50 },
        { drug := "Prednisolone", mode := "fixed", fixed_dose_mg := some 100 } ]),
    ("DA-EPOCH-R",
      [ { drug := "Etoposide", mode := "per_m2", dose_per_m2 := some 50 },
        { drug := "Doxorubicin", mode := "per_m2", dose_per_m2 := some 10 },
        { drug := "Vincristine", mode := "per_m2", dose_per_m2 := some 0.4, max_mg := some 2 },
        { drug := "Cyclophosphamide", mode := "per_m2", dose_per_m2 := some 750 },
        { drug := "Rituximab", mode := "per_kg", dose_per_kg := some 375 } ]),
    ("HyperCVAD",
      [ { drug := "Cyclophosphamide", mode := "per_m2", dose_per_m2 := some 300 },
        { drug := "Vincristine", mode := "per_m2", dose_per_m2 := some 1.4, max_mg := some 2 },
        { drug := "Doxorubicin", mode := "per_m2", dose_per_m2 := some 50 },
        { drug := "Dexamethasone", mode := "fixed", fixed_dose_mg := some 40 } ]),
    ("Daratumumab IV",
      [ { drug := "Daratumumab", mode := "per_kg", dose_per_kg := some 16 } ]),
    ("Daratumumab SC",
      [ { drug := "Daratumumab (SC)", mode := "fixed", fixed_dose_mg := some 1800 } ]) ]

/-- Models `get_chemo_template_by_name` (app.py lines 410-417): look the name up in the
`chemo_templates` table (`name` is UNIQUE, so the first match is the match);
a miss yields `None`. -/
def get_chemo_template_by_name (tbl : List (String × List DrugRule)) (name : String) :
    Option (List DrugRule) :=
  (tbl.find? (fun p => p.1 = name)).map Prod.snd

/-! ## BSA and the dose calculator (app.py lines 397-458) -/

/-- Python truthiness of a nullable float: `None` and `0.0` are falsy. -/
def truthyR (x : Option ℝ) : Prop := ¬ x.getD 0 = 0

/-- Models `calc_bsa` (app.py lines 397-403): `None` when weight or height is falsy,
otherwise `((height_cm * weight_kg) / 3600.0) ** 0.5` (Mosteller formula). -/
noncomputable def calc_bsa (weight_kg height_cm : Option ℝ) : Option ℝ :=
  if weight_kg.getD 0 = 0 ∨ height_cm.getD 0 = 0 then none
  else some (Real.sqrt (height_cm.getD 0 * weight_kg.getD 0 / 3600))

/-- The `dose_mg` local of `compute_doses_for_template` before the cap is
applied (app.py lines 436-442): dispatch on the rule's mode, guarded by
truthiness of `bsa` resp. `weight_kg`. -/
noncomputable def dose_raw (item : DrugRule) (bsa weight_kg : Option ℝ) : Option ℝ :=
  if item.mode = "per_m2" ∧ truthyR bsa then
    item.dose_per_m2.map (fun k => k * bsa.getD 0)
  else if item.mode = "per_kg" ∧ truthyR weight_kg then
    item.dose_per_kg.map (fun k => k * weight_kg.getD 0)
  else if item.mode = "fixed" then
    item.fixed_dose_mg
  else
    none

/-- The `dose_mg` local after the cap (app.py lines 444-445):
`dose_mg = min(dose_mg, max_mg)` when both the cap and the dose are present. -/
noncomputable def dose_capped (item : DrugRule) (bsa weight_kg : Option ℝ) : Option ℝ :=
  match item.max_mg, dose_raw item bsa weight_kg with
  | some m, some d => some (min d m)
  | _, d => d

/-- Models `round(x, 1)`: one-decimal rounding used for `template_dose_mg`
(app.py line 454). -/
noncomputable def round1 (x : ℝ) : ℝ := (round (10 * x) : ℤ) / 10

/-- One output row of `compute_doses_for_template` (app.py lines 447-456). -/
structure DoseRow where
  drug_name : String
  mode : String
  dose_per_m2 : Option ℝ
  dose_per_kg : Option ℝ
  fixed_dose_mg : Option ℝ
  template_dose_mg : Option ℝ

/-- Builds one `DoseRow` for one template item (app.py lines 428-456). -/
noncomputable def compute_row (item : DrugRule) (bsa weight_kg : Option ℝ) : DoseRow :=
  { drug_name := item.drug
    mode := item.mode
    dose_per_m2 := item.dose_per_m2
    dose_per_kg := item.dose_per_kg
    fixed_dose_mg := item.fixed_dose_mg
    template_dose_mg := (dose_capped item bsa weight_kg).map round1 }

/-- Models `compute_doses_for_template` (app.py lines 420-458): computes the BSA, then
one row per template item; a template-lookup miss (or an empty template, both
falsy in Python) yields no rows. -/
noncomputable def compute_doses_for_template (tbl : List (String × List DrugRule))
    (template_name : String) (weight_kg height_cm : Option ℝ) :
    List DoseRow × Option ℝ :=
  let bsa := calc_bsa weight_kg height_cm
  match get_chemo_template_by_name tbl template_name with
  | none => ([], bsa)
  | some tpl => (tpl.map (fun item => compute_row item bsa weight_kg), bsa)

/-! ## Structural facts about the seeded rules and the dose dispatch -/

/-- Shape of every seeded rule: the coefficient matching the mode is present,
and only `per_m2` rules carry a cap. -/
def ruleWF (r : DrugRule) : Prop :=
  (r.mode = "per_m2" ∧ r.dose_per_m2.isSome = true) ∨
  (r.mode = "per_kg" ∧ r.dose_per_kg.isSome = true ∧ r.max_mg.isNone = true) ∨
  (r.mode = "fixed" ∧ r.fixed_dose_mg.isSome = true ∧ r.max_mg.isNone = true)

instance (r : DrugRule) : Decidable (ruleWF r) := by
  unfold ruleWF
  infer_instance

theorem seed_rules_wf_all : ∀ p ∈ seed_chemo_templates, ∀ r ∈ p.2, ruleWF r := by
  decide

theorem seed_template_rules_wf (name : String) (tpl : List DrugRule)
    (htpl : get_chemo_template_by_name seed_chemo_templates name = some tpl) :
    ∀ item ∈ tpl, ruleWF item := by
  rw [get_chemo_template_by_name, Option.map_eq_some'] at htpl
  obtain ⟨pr, hfind, hsnd⟩ := htpl
  have hmem := List.mem_of_find?_eq_some hfind
  intro item hitem
  exact seed_rules_wf_all pr hmem item (hsnd ▸ hitem)

theorem truthyR_some (x : ℝ) (hx : ¬ x = 0) : truthyR (some x) := by
  simpa [truthyR] using hx

theorem not_truthyR_none : ¬ truthyR none := by simp [truthyR]

theorem not_truthyR_some_zero : ¬ truthyR (some 0) := by simp [truthyR]

theorem dose_raw_per_m2 (item : DrugRule) (hmode : item.mode = "per_m2")
    (bsa w : Option ℝ) (b : ℝ) (hb : bsa = some b) (hb0 : ¬ b = 0) :
    dose_raw item bsa w = item.dose_per_m2.map (fun k => k * b) := by
  subst hb
  rw [dose_raw, if_pos ⟨hmode, truthyR_some b hb0⟩]
  simp

theorem dose_raw_per_m2_undef (item : DrugRule) (hmode : item.mode = "per_m2")
    (bsa w : Option ℝ) (hb : ¬ truthyR bsa) :
    dose_raw item bsa w = none := by
  rw [dose_raw, if_neg (fun hc => hb hc.2), if_neg, if_neg]
  · rw [hmode]; decide
  · rintro ⟨hc, -⟩
    rw [hmode] at hc
    exact absurd hc (by decide)

theorem dose_raw_per_kg (item : DrugRule) (hmode : item.mode = "per_kg")
    (bsa : Option ℝ) (x : ℝ) (hx : ¬ x = 0) :
    dose_raw item bsa (some x) = item.dose_per_kg.map (fun k => k * x) := by
  rw [dose_raw, if_neg, if_pos ⟨hmode, truthyR_some x hx⟩]
  · simp
  · rintro ⟨hc, -⟩
    rw [hmode] at hc
    exact absurd hc (by decide)

theorem dose_raw_per_kg_undef (item : DrugRule) (hmode : item.mode = "per_kg")
    (bsa w : Option ℝ) (hw : ¬ truthyR w) :
    dose_raw item bsa w = none := by
  rw [dose_raw, if_neg, if_neg (fun hc => hw hc.2), if_neg]
  · rw [hmode]; decide
  · rintro ⟨hc, -⟩
    rw [hmode] at hc
    exact absurd hc (by decide)

theorem dose_raw_fixed (item : DrugRule) (hmode : item.mode = "fixed")
    (bsa w : Option ℝ) :
    dose_raw item bsa w = item.fixed_dose_mg := by
  rw [dose_raw, if_neg, if_neg, if_pos hmode]
  · rintro ⟨hc, -⟩
    rw [hmode] at hc
    exact absurd hc (by decide)
  · rintro ⟨hc, -⟩
    rw [hmode] at hc
    exact absurd hc (by decide)

theorem dose_capped_of_max_none (item : DrugRule) (hmax : item.max_mg = none)
    (bsa w : Option ℝ) :
    dose_capped item bsa w = dose_raw item bsa w := by
  rw [dose_capped, hmax]

theorem dose_capped_of_max_some (item : DrugRule) (m : ℝ) (hmax : item.max_mg = some m)
    (bsa w : Option ℝ) :
    dose_capped item bsa w = (dose_raw item bsa w).map (fun d => min d m) := by
  rw [dose_capped, hmax]
  cases dose_raw item bsa w <;> rfl

/-- If `calc_bsa` yields a value from nonnegative inputs, that value is
positive (it is the square root of a positive product). -/
theorem calc_bsa_pos (w h : Option ℝ)
    (hw : ∀ x, w = some x → 0 ≤ x) (hh : ∀ x, h = some x → 0 ≤ x)
    (b : ℝ) (hb : calc_bsa w h = some b) : 0 < b := by
  rw [calc_bsa] at hb
  split at hb
  · exact absurd hb (by simp)
  · rename_i hc
    push_neg at hc
    obtain ⟨hw0, hh0⟩ := hc
    have hwpos : 0 < w.getD 0 := by
      cases w with
      | none => exact absurd rfl hw0
      | some x => exact lt_of_le_of_ne (hw x rfl) (by simpa using Ne.symm hw0)
    have hhpos : 0 < h.getD 0 := by
      cases h with
      | none => exact absurd rfl hh0
      | some x => exact lt_of_le_of_ne (hh x rfl) (by simpa using Ne.symm hh0)
    have : b = Real.sqrt (h.getD 0 * w.getD 0 / 3600) := by
      injection hb with hb'
      exact hb'.symm
    rw [this]
    exact Real.sqrt_pos.mpr (by positivity)

/-! ## C1: per-mode dose computation -/

/-- C1.  For every drug rule of a seeded template, the computed dose follows
the rule's mode: a `per_m2` rule with coefficient `k` yields `k * BSA` when the
BSA is defined (clamped with `min` against the cap when one is present) and no
value when the BSA is undefined; a `per_kg` rule with coefficient `k` yields
`k * weight` when the weight is present and nonzero and no value otherwise; a
`fixed` rule always yields its fixed coefficient.  The stored/displayed
`template_dose_mg` is the documented one-decimal rounding of that dose, and an
undefined dose is surfaced as `none`, never as a zero. -/
theorem C1_template_dose_modes
    (name : String) (tpl : List DrugRule) (item : DrugRule)
    (htpl : get_chemo_template_by_name seed_chemo_templates name = some tpl)
    (hmem : item ∈ tpl)
    (w h : Option ℝ)
    (hw : ∀ x, w = some x → 0 ≤ x) (hh : ∀ x, h = some x → 0 ≤ x) :
    (∀ k, item.mode = "per_m2" → item.dose_per_m2 = some k →
      (calc_bsa w h = none → dose_capped item (calc_bsa w h) w = none) ∧
      (∀ b, calc_bsa w h = some b →
        (item.max_mg = none → dose_capped item (calc_bsa w h) w = some (k * b)) ∧
        (∀ m, item.max_mg = some m →
          dose_capped item (calc_bsa w h) w = some (min (k * b) m)))) ∧
    (∀ k, item.mode = "per_kg" → item.dose_per_kg = some k →
      (∀ x, w = some x → ¬ x = 0 → dose_capped item (calc_bsa w h) w = some (k * x)) ∧
      ((w = none ∨ w = some 0) → dose_capped item (calc_bsa w h) w = none)) ∧
    (∀ v, item.mode = "fixed" → item.fixed_dose_mg = some v →
      dose_capped item (calc_bsa w h) w = some v) ∧
    (compute_row item (calc_bsa w h) w).template_dose_mg
      = (dose_capped item (calc_bsa w h) w).map round1 ∧
    (dose_capped item (calc_bsa w h) w = none →
      (compute_row item (calc_bsa w h) w).template_dose_mg = none) := by
  have hwf := seed_template_rules_wf name tpl htpl item hmem
  refine ⟨?_, ?_, ?_, rfl, ?_⟩
  · intro k hmode hk
    constructor
    · intro hbsa
      have hraw := dose_raw_per_m2_undef item hmode (calc_bsa w h) w
        (by rw [hbsa]; exact not_truthyR_none)
      cases hmax : item.max_mg with
      | none => rw [dose_capped_of_max_none item hmax, hraw]
      | some m => rw [dose_capped_of_max_some item m hmax, hraw]; rfl
    · intro b hb
      have hbpos := calc_bsa_pos w h hw hh b hb
      have hraw := dose_raw_per_m2 item hmode (calc_bsa w h) w b hb (ne_of_gt hbpos)
      constructor
      · intro hmax
        rw [dose_capped_of_max_none item hmax, hraw, hk]; rfl
      · intro m hmax
        rw [dose_capped_of_max_some item m hmax, hraw, hk]; rfl
  · intro k hmode hk
    have hmax : item.max_mg = none := by
      rcases hwf with ⟨hm, -⟩ | ⟨-, -, hm⟩ | ⟨hm, -, -⟩
      · rw [hmode] at hm; exact absurd hm (by decide)
      · exact Option.isNone_iff_eq_none.mp hm
      · rw [hmode] at hm; exact absurd hm (by decide)
    constructor
    · intro x hxw hx0
      have hraw := dose_raw_per_kg item hmode (calc_bsa w h) x hx0
      rw [hxw, dose_capped_of_max_none item hmax]
      rw [hxw] at hraw
      rw [hraw, hk]; rfl
    · intro hwz
      have hnt : ¬ truthyR w := by
        rcases hwz with rfl | rfl
        · exact not_truthyR_none
        · exact not_truthyR_some_zero
      rw [dose_capped_of_max_none item hmax,
        dose_raw_per_kg_undef item hmode (calc_bsa w h) w hnt]
  · intro v hmode hv
    have hmax : item.max_mg = none := by
      rcases hwf with ⟨hm, -⟩ | ⟨hm, -, -⟩ | ⟨-, -, hm⟩
      · rw [hmode] at hm; exact absurd hm (by decide)
      · rw [hmode] at hm; exact absurd hm (by decide)
      · exact Option.isNone_iff_eq_none.mp hm
    rw [dose_capped_of_max_none item hmax,
      dose_raw_fixed item hmode (calc_bsa w h) w, hv]
  · intro hnone
    simp [compute_row, hnone]

/-- Witness for C1: the CHOP Vincristine rule (1.4 mg/m², cap 2 mg) at
weight 70 kg, height 170 cm. -/
theorem C1_template_dose_modes_witness :
    get_chemo_template_by_name seed_chemo_templates "CHOP" =
      some [ { drug := "Cyclophosphamide", mode := "per_m2", dose_per_m2 := some 750 },
             { drug := "Doxorubicin", mode := "per_m2", dose_per_m2 := some 50 },
             { drug := "Vincristine", mode := "per_m2", dose_per_m2 := some 1.4,
               max_mg := some 2 },
             { drug := "Prednisolone", mode := "fixed", fixed_dose_mg := some 100 } ] ∧
    calc_bsa (some 70) (some 170) = some (Real.sqrt (170 * 70 / 3600)) ∧
    dose_capped
        { drug := "Vincristine", mode := "per_m2", dose_per_m2 := some 1.4,
          max_mg := some 2 }
        (calc_bsa (some 70) (some 170)) (some 70)
      = some (min (1.4 * Real.sqrt (170 * 70 / 3600)) 2) := by
  have htpl : get_chemo_template_by_name seed_chemo_templates "CHOP" =
      some [ { drug := "Cyclophosphamide", mode := "per_m2", dose_per_m2 := some 750 },
             { drug := "Doxorubicin", mode := "per_m2", dose_per_m2 := some 50 },
             { drug := "Vincristine", mode := "per_m2", dose_per_m2 := some 1.4,
               max_mg := some 2 },
             { drug := "Prednisolone", mode := "fixed", fixed_dose_mg := some 100 } ] := rfl
  have hb : calc_bsa (some 70) (some 170) = some (Real.sqrt (170 * 70 / 3600)) := by
    rw [calc_bsa, if_neg]
    · rfl
    · push_neg
      refine ⟨by norm_num [Option.getD_some], by norm_num [Option.getD_some]⟩
  refine ⟨htpl, hb, ?_⟩
  have happ := C1_template_dose_modes "CHOP" _ _ htpl
    (List.mem_cons_of_mem _ (List.mem_cons_of_mem _ (List.mem_cons_self _ _)))
    (some 70) (some 170)
    (by intro x hx; injection hx with hx'; rw [← hx']; norm_num)
    (by intro x hx; injection hx with hx'; rw [← hx']; norm_num)
  exact ((happ.1 1.4 rfl rfl).2 (Real.sqrt (170 * 70 / 3600)) hb).2 2 rfl

/-! ## C4: the Mosteller BSA formula -/

/-- C4.  For all positive `weight_kg` and `height_cm` the computed BSA equals
`sqrt(weight_kg * height_cm / 3600)` (Mosteller), and BSA is `none` whenever
either input is absent or zero. -/
theorem C4_bsa_mosteller (w h : ℝ) (hw : 0 < w) (hh : 0 < h) (w' h' : Option ℝ) :
    calc_bsa (some w) (some h) = some (Real.sqrt (w * h / 3600)) ∧
    calc_bsa none h' = none ∧
    calc_bsa w' none = none ∧
    calc_bsa (some 0) h' = none ∧
    calc_bsa w' (some 0) = none := by
  refine ⟨?_, ?_, ?_, ?_, ?_⟩
  · rw [calc_bsa, if_neg, Option.getD_some, Option.getD_some, mul_comm h w]
    push_neg
    exact ⟨ne_of_gt hw, ne_of_gt hh⟩
  · rw [calc_bsa, if_pos]; left; rfl
  · rw [calc_bsa, if_pos]; right; rfl
  · rw [calc_bsa, if_pos]; left; rfl
  · rw [calc_bsa, if_pos]; right; rfl

/-- Witness for C4 at weight 70 kg, height 170 cm. -/
theorem C4_bsa_mosteller_witness :
    (0:ℝ) < 70 ∧ (0:ℝ) < 170 ∧
    calc_bsa (some 70) (some 170) = some (Real.sqrt (70 * 170 / 3600)) := by
  refine ⟨by norm_num, by norm_num, ?_⟩
  exact (C4_bsa_mosteller 70 170 (by norm_num) (by norm_num) none none).1

/-! ## Relational store (`init_db`, app.py lines 24-181)

Tables are lists in rowid (insertion) order; nullable columns are `Option`s. -/

structure Hospital where
  id : ℕ
  name : String

structure Ward where
  id : ℕ
  hospital_id : ℕ
  name : String

structure Patient where
  id : ℕ
  patient_name : String
  mrn : Option String := none
  age : Option ℤ := none
  sex : Option String := none
  hospital_id : Option ℕ := none
  ward_id : Option ℕ := none
  status : Option String := none
  planned_admit_date : Option String := none
  admit_date : Option String := none
  bed : Option String := none
  diagnosis : Option String := none
  responsible_md : Option String := none
  priority : Option String := none
  precautions : Option String := none
  notes : Option String := none
  last_rounded_at : Option String := none
  weight_kg : Option ℝ := none
  height_cm : Option ℝ := none
  bsa : Option ℝ := none
  chemo_regimen : Option String := none
  chemo_total_cycles : Option ℤ := none
  chemo_interval_days : Option ℤ := none

/-- One `chemo_courses` ledger row (app.py lines 139-155). -/
structure CourseRow where
  patient_id : ℕ
  cycle_no : ℤ
  given_date : String
  regimen_name : Option String := none
  drug_name : Option String := none
  mode : Option String := none
  dose_per_m2 : Option ℝ := none
  dose_per_kg : Option ℝ := none
  fixed_dose_mg : Option ℝ := none
  dose_mg : Option ℝ := none
  dose_factor : Option ℝ := none
  notes : Option String := none

/-- One `chemo_assessments` row (app.py lines 158-168). -/
structure AssessRow where
  patient_id : ℕ
  cycle_no : Option ℤ := none
  assess_date : String
  assess_type : Option String := none
  result_summary : Option String := none
  response : Option String := none

structure Store where
  hospitals : List Hospital
  wards : List Ward
  patients : List Patient
  chemo_courses : List CourseRow
  chemo_assessments : List AssessRow

/-! ## Cycle Recorder (T_Chemo, app.py lines 1208-1535) -/

/-- The prior-cycle query (app.py lines 1351-1357): rows of `chemo_courses`
for this patient and cycle `cycle_no - 1`, fetched only when that prior cycle
number is at least 1. -/
def prev_cycle_rows (courses : List CourseRow) (pid : ℕ) (cycle_no : ℤ) :
    List CourseRow :=
  if 1 ≤ cycle_no - 1 then
    courses.filter (fun r => r.patient_id == pid && r.cycle_no == cycle_no - 1)
  else []

/-- One step of building `prev_map` (the dict comprehension of app.py lines
1363-1367): a row with a non-null `dose_mg` overwrites the value under its
`drug_name` key; a row with a null `dose_mg` is skipped. -/
def prev_map_step (drug : String) (acc : Option ℝ) (r : CourseRow) : Option ℝ :=
  match r.dose_mg with
  | some v => if r.drug_name == some drug then some v else acc
  | none => acc

/-- Models `prev_map.get(drug)` (app.py lines 1363-1367, 1373): the dict comprehension
keeps, for each drug name, the dose of the last row whose `dose_mg` is
non-null; drugs with no such row look up to `None`. -/
def prev_map_get (rows : List CourseRow) (drug : String) : Option ℝ :=
  rows.foldl (prev_map_step drug) none

/-- The proposed default dose for one drug (app.py lines 1373-1383):
the prior cycle's absolute dose when recorded, otherwise
`template_dose * dose_factor` when the template dose exists, otherwise 0. -/
noncomputable def default_dose (prev_rows : List CourseRow) (drug : String)
    (template_dose : Option ℝ) (dose_factor : ℝ) : ℝ :=
  match prev_map_get prev_rows drug with
  | some p => p
  | none =>
    match template_dose with
    | some t => t * dose_factor
    | none => 0

/-- One element of `manual_drug_entries` (the tuples built at app.py lines
1394-1403). -/
structure DrugEntry where
  drug : String
  mode : String
  dose_per_m2 : Option ℝ := none
  dose_per_kg : Option ℝ := none
  fixed_dose_mg : Option ℝ := none
  final_dose : ℝ

/-- The `chemo_courses` INSERT for one entry (app.py lines 1466-1486). -/
def mk_course_row (pid : ℕ) (cycle_no : ℤ) (given_date regimen_name : String)
    (dose_factor : ℝ) (e : DrugEntry) : CourseRow :=
  { patient_id := pid
    cycle_no := cycle_no
    given_date := given_date
    regimen_name := some regimen_name
    drug_name := some e.drug
    mode := some e.mode
    dose_per_m2 := e.dose_per_m2
    dose_per_kg := e.dose_per_kg
    fixed_dose_mg := e.fixed_dose_mg
    dose_mg := some e.final_dose
    dose_factor := some dose_factor
    notes := none }

/-- The cycle-save button handler (app.py lines 1452-1491): refuse (with an
error, `False`) when no regimen is set or no entries were collected; otherwise
append one ledger row per entry, in order. -/
def save_cycle (s : Store) (pid : ℕ) (cycle_no : ℤ) (given_date regimen_name : String)
    (entries : List DrugEntry) (dose_factor : ℝ) : Store × Bool :=
  if regimen_name = "" then (s, false)
  else if entries.length = 0 then (s, false)
  else
    ({ s with chemo_courses := s.chemo_courses ++
        entries.map (mk_course_row pid cycle_no given_date regimen_name dose_factor) },
     true)

/-- The body-metrics save (app.py lines 1231-1237): stores weight, height and
the recomputed BSA on the patient row, with Python falsy values stored as
NULL. -/
noncomputable def save_body_metrics (s : Store) (pid : ℕ)
    (weight_kg height_cm : ℝ) : Store :=
  { s with patients := s.patients.map (fun p =>
      if p.id == pid then
        { p with
          weight_kg := if weight_kg = 0 then none else some weight_kg
          height_cm := if height_cm = 0 then none else some height_cm
          bsa := (calc_bsa (some weight_kg) (some height_cm)).bind
            (fun v => if v = 0 then none else some v) }
      else p) }

/-- The chemo-plan save (app.py lines 1295-1301): updates the patient's
intended regimen, total cycles and interval, Python falsy values as NULL. -/
def save_chemo_plan (s : Store) (pid : ℕ) (regimen_name : String)
    (total_cycles interval_days : ℤ) : Store :=
  { s with patients := s.patients.map (fun p =>
      if p.id == pid then
        { p with
          chemo_regimen := if regimen_name = "" then none else some regimen_name
          chemo_total_cycles := if total_cycles = 0 then none else some total_cycles
          chemo_interval_days := if interval_days = 0 then none else some interval_days }
      else p) }

/-- The assessment save (app.py lines 1520-1535): appends one
`chemo_assessments` row, Python falsy values as NULL. -/
def save_assessment (s : Store) (pid : ℕ) (assess_cycle : ℤ) (assess_date : String)
    (assess_type result_summary response : String) : Store :=
  { s with chemo_assessments := s.chemo_assessments ++
      [ { patient_id := pid
          cycle_no := if assess_cycle = 0 then none else some assess_cycle
          assess_date := assess_date
          assess_type := if assess_type = "" then none else some assess_type
          result_summary := if result_summary = "" then none else some result_summary
          response := if response = "" then none else some response } ] }

/-! ## Settings tab deletion handlers (app.py lines 579-590 and 630-640) -/

/-- The hospital delete handler: refuse (`False`, store untouched) when some
patient's `hospital_id` references the hospital; otherwise delete the
hospital's wards and then the hospital. -/
def delete_hospital (s : Store) (hid : ℕ) : Store × Bool :=
  if 0 < (s.patients.filter (fun p => p.hospital_id == some hid)).length then
    (s, false)
  else
    ({ s with
        wards := s.wards.filter (fun w => !(w.hospital_id == hid))
        hospitals := s.hospitals.filter (fun h2 => !(h2.id == hid)) },
     true)

/-- The ward delete handler: refuse when some patient's `ward_id` references
the ward; otherwise delete the ward. -/
def delete_ward (s : Store) (wid : ℕ) : Store × Bool :=
  if 0 < (s.patients.filter (fun p => p.ward_id == some wid)).length then
    (s, false)
  else
    ({ s with wards := s.wards.filter (fun w => !(w.id == wid)) }, true)

/-! ## Discharge with readmit (T_Discharge, app.py lines 1610-1672) -/

/-- The note appended to the source row on discharge-with-readmit
(app.py lines 1619-1622). -/
def discharge_note (dc_date next_admit_date : String) : String :=
  "[D/C " ++ dc_date ++ "] Planned readmit on " ++ next_admit_date ++ "\n"

/-- The spawned `Planned` row (the INSERT of app.py lines 1630-1666): copies
the demographic, diagnosis, body-metric and chemo-plan fields and the hospital
assignment from the fetched source row `data`, clears ward/bed/admit
date/last-rounded, sets status `Planned` and the computed
`planned_admit_date`, and writes a fresh provenance note. -/
def spawn_readmit_row (data : Patient) (pid new_id : ℕ)
    (next_admit_date : String) : Patient :=
  { id := new_id
    patient_name := data.patient_name
    mrn := data.mrn
    age := data.age
    sex := data.sex
    hospital_id := data.hospital_id
    ward_id := none
    status := some "Planned"
    planned_admit_date := some next_admit_date
    admit_date := none
    bed := none
    diagnosis := data.diagnosis
    responsible_md := data.responsible_md
    priority := data.priority
    precautions := data.precautions
    notes := some ("Planned readmit after D/C from admission id " ++ toString pid)
    last_rounded_at := none
    weight_kg := data.weight_kg
    height_cm := data.height_cm
    bsa := data.bsa
    chemo_regimen := data.chemo_regimen
    chemo_total_cycles := data.chemo_total_cycles
    chemo_interval_days := data.chemo_interval_days }

/-- The discharge-with-readmit handler (app.py lines 1618-1666): the source
row gets status `Discharged` and the discharge note appended to its notes
(`COALESCE(notes,'') || note`), and one new `Planned` row is inserted.
`data` is the source row as fetched by `get_patient_by_id`, and `new_id` the
id AUTOINCREMENT assigns to the insert. -/
def discharge_readmit_save (s : Store) (pid : ℕ) (data : Patient)
    (dc_date next_admit_date : String) (new_id : ℕ) : Store :=
  { s with patients :=
      (s.patients.map (fun p =>
        if p.id == pid then
          { p with
            status := some "Discharged"
            notes := some (p.notes.getD "" ++ discharge_note dc_date next_admit_date) }
        else p))
      ++ [spawn_readmit_row data pid new_id next_admit_date] }

/-- Models `get_patient_by_id` (app.py lines 375-377): first row with this id. -/
def find_patient (s : Store) (pid : ℕ) : Option Patient :=
  s.patients.find? (fun p => p.id == pid)

/-! ## C9: the cycle ledger is append-only -/

/-- C9.  No operation of the Cycle Recorder deletes or updates an existing
`chemo_courses` row: the cycle save appends (or, on a refused save, leaves the
ledger unchanged), and the body-metrics save, chemo-plan save and assessment
save leave the ledger untouched. -/
theorem C9_ledger_append_only (s : Store) (pid : ℕ) (cycle_no : ℤ)
    (given_date regimen_name : String) (entries : List DrugEntry)
    (dose_factor weight_kg height_cm : ℝ) (reg : String)
    (tc idays acyc : ℤ) (adate aty asum aresp : String) :
    (∃ t, (save_cycle s pid cycle_no given_date regimen_name entries
        dose_factor).1.chemo_courses = s.chemo_courses ++ t) ∧
    (save_body_metrics s pid weight_kg height_cm).chemo_courses = s.chemo_courses ∧
    (save_chemo_plan s pid reg tc idays).chemo_courses = s.chemo_courses ∧
    (save_assessment s pid acyc adate aty asum aresp).chemo_courses
      = s.chemo_courses := by
  refine ⟨?_, rfl, rfl, rfl⟩
  rw [save_cycle]
  split
  · exact ⟨[], (List.append_nil _).symm⟩
  · split
    · exact ⟨[], (List.append_nil _).symm⟩
    · exact ⟨_, rfl⟩

/-! ## C7: deletion guards -/

/-- C7.  Deleting a hospital or ward referenced by at least one patient leaves
the store unchanged and reports failure; with no referencing patient the
deletion succeeds, removes the target (and, for a hospital, all of its wards —
cascading), keeps every other hospital and ward, and touches no other table. -/
theorem C7_deletion_guards (s : Store) (hid wid : ℕ) :
    ((∃ p ∈ s.patients, p.hospital_id = some hid) →
      delete_hospital s hid = (s, false)) ∧
    ((∀ p ∈ s.patients, ¬ p.hospital_id = some hid) →
      (delete_hospital s hid).2 = true ∧
      (∀ h2 ∈ (delete_hospital s hid).1.hospitals, ¬ h2.id = hid) ∧
      (∀ w ∈ (delete_hospital s hid).1.wards, ¬ w.hospital_id = hid) ∧
      (∀ h2 ∈ s.hospitals, ¬ h2.id = hid →
        h2 ∈ (delete_hospital s hid).1.hospitals) ∧
      (∀ w ∈ s.wards, ¬ w.hospital_id = hid →
        w ∈ (delete_hospital s hid).1.wards) ∧
      (delete_hospital s hid).1.patients = s.patients ∧
      (delete_hospital s hid).1.chemo_courses = s.chemo_courses) ∧
    ((∃ p ∈ s.patients, p.ward_id = some wid) →
      delete_ward s wid = (s, false)) ∧
    ((∀ p ∈ s.patients, ¬ p.ward_id = some wid) →
      (delete_ward s wid).2 = true ∧
      (∀ w ∈ (delete_ward s wid).1.wards, ¬ w.id = wid) ∧
      (∀ w ∈ s.wards, ¬ w.id = wid → w ∈ (delete_ward s wid).1.wards) ∧
      (delete_ward s wid).1.hospitals = s.hospitals ∧
      (delete_ward s wid).1.patients = s.patients) := by
  refine ⟨?_, ?_, ?_, ?_⟩
  · rintro ⟨p, hp, href⟩
    rw [delete_hospital, if_pos]
    exact List.length_pos_iff_ne_nil.mpr
      (List.ne_nil_of_mem (List.mem_filter.mpr ⟨hp, by simp [href]⟩))
  · intro hnone
    have hflt : s.patients.filter (fun p => p.hospital_id == some hid) = [] :=
      List.filter_eq_nil_iff.mpr (fun p hp => by simpa using hnone p hp)
    have hcond : ¬ 0 < (s.patients.filter
        (fun p => p.hospital_id == some hid)).length := by
      simp [hflt]
    have heq : delete_hospital s hid =
        ({ s with
            wards := s.wards.filter (fun w => !(w.hospital_id == hid))
            hospitals := s.hospitals.filter (fun h2 => !(h2.id == hid)) },
         true) := by
      rw [delete_hospital, if_neg hcond]
    rw [heq]
    refine ⟨rfl, ?_, ?_, ?_, ?_, rfl, rfl⟩
    · intro h2 hm
      have := (List.mem_filter.mp hm).2
      simpa using this
    · intro w hm
      have := (List.mem_filter.mp hm).2
      simpa using this
    · intro h2 hm hne
      exact List.mem_filter.mpr ⟨hm, by simpa using hne⟩
    · intro w hm hne
      exact List.mem_filter.mpr ⟨hm, by simpa using hne⟩
  · rintro ⟨p, hp, href⟩
    rw [delete_ward, if_pos]
    exact List.length_pos_iff_ne_nil.mpr
      (List.ne_nil_of_mem (List.mem_filter.mpr ⟨hp, by simp [href]⟩))
  · intro hnone
    have hflt : s.patients.filter (fun p => p.ward_id == some wid) = [] :=
      List.filter_eq_nil_iff.mpr (fun p hp => by simpa using hnone p hp)
    have hcond : ¬ 0 < (s.patients.filter
        (fun p => p.ward_id == some wid)).length := by
      simp [hflt]
    have heq : delete_ward s wid =
        ({ s with wards := s.wards.filter (fun w => !(w.id == wid)) }, true) := by
      rw [delete_ward, if_neg hcond]
    rw [heq]
    refine ⟨rfl, ?_, ?_, rfl, rfl⟩
    · intro w hm
      have := (List.mem_filter.mp hm).2
      simpa using this
    · intro w hm hne
      exact List.mem_filter.mpr ⟨hm, by simpa using hne⟩

/-- Demonstration store for the deletion guards: one patient assigned to
hospital 1 and to ward 2 (which belongs to hospital 2). -/
def guard_demo_store : Store :=
  { hospitals := [⟨1, "Hospital 1"⟩, ⟨2, "Hospital 2"⟩]
    wards := [⟨1, 1, "Ward A"⟩, ⟨2, 2, "Ward B"⟩]
    patients := [{ id := 1, patient_name := "P",
                   hospital_id := some 1, ward_id := some 2 }]
    chemo_courses := []
    chemo_assessments := [] }

/-- Witness for C7: deleting hospital 1 (referenced via `hospital_id`) and
ward 2 (referenced via `ward_id`) are both refused and leave the store as
it was. -/
theorem C7_deletion_guards_witness :
    (∃ p ∈ guard_demo_store.patients, p.hospital_id = some 1) ∧
    delete_hospital guard_demo_store 1 = (guard_demo_store, false) ∧
    (∃ p ∈ guard_demo_store.patients, p.ward_id = some 2) ∧
    delete_ward guard_demo_store 2 = (guard_demo_store, false) := by
  have hh : ∃ p ∈ guard_demo_store.patients, p.hospital_id = some 1 :=
    ⟨{ id := 1, patient_name := "P", hospital_id := some 1, ward_id := some 2 },
      List.mem_singleton_self _, rfl⟩
  have hw : ∃ p ∈ guard_demo_store.patients, p.ward_id = some 2 :=
    ⟨{ id := 1, patient_name := "P", hospital_id := some 1, ward_id := some 2 },
      List.mem_singleton_self _, rfl⟩
  exact ⟨hh, (C7_deletion_guards guard_demo_store 1 2).1 hh,
    hw, (C7_deletion_guards guard_demo_store 1 2).2.2.1 hw⟩

/-! ## C10: the hospital guard ignores ward-level references -/

/-- Store exhibiting the implicit gap: the patient's `ward_id` points at
ward 1, which belongs to hospital 1, while the patient's `hospital_id` points
at hospital 2. -/
def dangling_demo_store : Store :=
  { hospitals := [⟨1, "Hospital 1"⟩, ⟨2, "Hospital 2"⟩]
    wards := [⟨1, 1, "Ward A"⟩]
    patients := [{ id := 1, patient_name := "P",
                   hospital_id := some 2, ward_id := some 1 }]
    chemo_courses := []
    chemo_assessments := [] }

/-- C10.  The hospital delete guard checks only `patients.hospital_id`: in
`dangling_demo_store`, deleting hospital 1 succeeds, cascades away ward 1,
and leaves the patient's `ward_id` pointing at a ward that no longer
exists. -/
theorem C10_hospital_guard_ward_dangling :
    (delete_hospital dangling_demo_store 1).2 = true ∧
    (delete_hospital dangling_demo_store 1).1.wards = [] ∧
    (∃ p ∈ (delete_hospital dangling_demo_store 1).1.patients,
      p.ward_id = some 1 ∧
      ∀ w ∈ (delete_hospital dangling_demo_store 1).1.wards, ¬ w.id = 1) := by
  refine ⟨rfl, rfl, ?_⟩
  refine ⟨{ id := 1, patient_name := "P", hospital_id := some 2, ward_id := some 1 },
    ?_, rfl, ?_⟩
  · exact List.mem_singleton_self _
  · intro w hw
    have hnil : (delete_hospital dangling_demo_store 1).1.wards = [] := rfl
    rw [hnil] at hw
    exact absurd hw (List.not_mem_nil w)

/-! ## C3: discharge with readmit -/

/-- Source patient for the discharge-with-readmit scenario. -/
def readmit_demo_patient : Patient :=
  { id := 1, patient_name := "P", hospital_id := some 5, notes := some "N" }

/-- Store holding only `readmit_demo_patient`. -/
def readmit_demo_store : Store :=
  { hospitals := [⟨5, "Hospital 5"⟩]
    wards := []
    patients := [readmit_demo_patient]
    chemo_courses := []
    chemo_assessments := [] }

/-- Counterexample to C3 as stated.  The claim (via the spec's §3 lifecycle
rule) requires the spawned row's copy to exclude the hospital assignment, so
the new row's `hospital_id` would have to be cleared; but discharging patient
1 (hospital 5) with readmit spawns a row whose `hospital_id` is still
`some 5`. -/
theorem C3_readmit_hospital_copied_cex :
    ¬ (((discharge_readmit_save readmit_demo_store 1 readmit_demo_patient
          "2024-01-01" "2024-01-22" 2).patients.getLast?.map
            (fun p => p.hospital_id)) = some none) := by
  intro hcontra
  have : (some (some 5) : Option (Option ℕ)) = some none := by
    have hlast : (discharge_readmit_save readmit_demo_store 1 readmit_demo_patient
        "2024-01-01" "2024-01-22" 2).patients.getLast?.map (fun p => p.hospital_id)
        = some (some 5) := rfl
    rw [← hlast]
    exact hcontra
  simp at this

/-- C3 (amended).  Discharge-with-readmit produces exactly one new patient
row: status `Planned`, `planned_admit_date` the computed next date, all
demographic / body-metric / diagnosis / chemo-plan fields copied from the
source row, the hospital assignment preserved (not excluded), ward / bed /
admit date / last-rounded cleared, a fresh provenance note, and a freshly
assigned row id.  The source row's status becomes `Discharged` with the
discharge note appended to its notes (original notes kept as a prefix), and
every other patient row is untouched. -/
theorem C3_discharge_readmit_amended (s : Store) (pid : ℕ) (data : Patient)
    (dc_date next_admit_date : String) (new_id : ℕ)
    (hdata : find_patient s pid = some data) :
    (discharge_readmit_save s pid data dc_date next_admit_date new_id).patients.length
      = s.patients.length + 1 ∧
    ((discharge_readmit_save s pid data dc_date next_admit_date new_id).patients.getLast?
      = some (spawn_readmit_row data pid new_id next_admit_date)) ∧
    (spawn_readmit_row data pid new_id next_admit_date).status = some "Planned" ∧
    (spawn_readmit_row data pid new_id next_admit_date).planned_admit_date
      = some next_admit_date ∧
    (spawn_readmit_row data pid new_id next_admit_date).patient_name = data.patient_name ∧
    (spawn_readmit_row data pid new_id next_admit_date).mrn = data.mrn ∧
    (spawn_readmit_row data pid new_id next_admit_date).age = data.age ∧
    (spawn_readmit_row data pid new_id next_admit_date).sex = data.sex ∧
    (spawn_readmit_row data pid new_id next_admit_date).hospital_id = data.hospital_id ∧
    (spawn_readmit_row data pid new_id next_admit_date).ward_id = none ∧
    (spawn_readmit_row data pid new_id next_admit_date).bed = none ∧
    (spawn_readmit_row data pid new_id next_admit_date).admit_date = none ∧
    (spawn_readmit_row data pid new_id next_admit_date).diagnosis = data.diagnosis ∧
    (spawn_readmit_row data pid new_id next_admit_date).responsible_md
      = data.responsible_md ∧
    (spawn_readmit_row data pid new_id next_admit_date).priority = data.priority ∧
    (spawn_readmit_row data pid new_id next_admit_date).precautions = data.precautions ∧
    (spawn_readmit_row data pid new_id next_admit_date).weight_kg = data.weight_kg ∧
    (spawn_readmit_row data pid new_id next_admit_date).height_cm = data.height_cm ∧
    (spawn_readmit_row data pid new_id next_admit_date).bsa = data.bsa ∧
    (spawn_readmit_row data pid new_id next_admit_date).chemo_regimen
      = data.chemo_regimen ∧
    (spawn_readmit_row data pid new_id next_admit_date).chemo_total_cycles
      = data.chemo_total_cycles ∧
    (spawn_readmit_row data pid new_id next_admit_date).chemo_interval_days
      = data.chemo_interval_days ∧
    (spawn_readmit_row data pid new_id next_admit_date).id = new_id ∧
    (∀ p ∈ s.patients, p.id = pid →
      { p with
        status := some "Discharged"
        notes := some (p.notes.getD "" ++ discharge_note dc_date next_admit_date) }
      ∈ (discharge_readmit_save s pid data dc_date next_admit_date new_id).patients) ∧
    (∀ p ∈ s.patients, ¬ p.id = pid →
      p ∈ (discharge_readmit_save s pid data dc_date next_admit_date new_id).patients) := by
  refine ⟨?_, ?_, rfl, rfl, rfl, rfl, rfl, rfl, rfl, rfl, rfl, rfl, rfl, rfl, rfl,
    rfl, rfl, rfl, rfl, rfl, rfl, rfl, rfl, ?_, ?_⟩
  · simp [discharge_readmit_save]
  · rw [discharge_readmit_save]
    exact List.getLast?_append_of_ne_nil _ (by simp)
  · intro p hp hpid
    rw [discharge_readmit_save]
    refine List.mem_append_left _ ?_
    have : (fun q => if q.id == pid then
        { q with
          status := some "Discharged"
          notes := some (q.notes.getD "" ++ discharge_note dc_date next_admit_date) }
        else q) p
        = { p with
            status := some "Discharged"
            notes := some (p.notes.getD "" ++ discharge_note dc_date next_admit_date) } := by
      simp [hpid]
    exact this ▸ List.mem_map_of_mem _ hp
  · intro p hp hpid
    rw [discharge_readmit_save]
    refine List.mem_append_left _ ?_
    have : (fun q => if q.id == pid then
        { q with
          status := some "Discharged"
          notes := some (q.notes.getD "" ++ discharge_note dc_date next_admit_date) }
        else q) p = p := by
      simp [hpid]
    exact this ▸ List.mem_map_of_mem _ hp

/-- Witness for C3 (amended) on `readmit_demo_store`: the spawn keeps hospital
5, clears the ward, and the source row ends Discharged with its old notes as
a prefix. -/
theorem C3_discharge_readmit_amended_witness :
    find_patient readmit_demo_store 1 = some readmit_demo_patient ∧
    (discharge_readmit_save readmit_demo_store 1 readmit_demo_patient
      "2024-01-01" "2024-01-22" 2).patients.length = 2 ∧
    (spawn_readmit_row readmit_demo_patient 1 2 "2024-01-22").hospital_id = some 5 ∧
    (spawn_readmit_row readmit_demo_patient 1 2 "2024-01-22").ward_id = none ∧
    { readmit_demo_patient with
      status := some "Discharged"
      notes := some ("N" ++ discharge_note "2024-01-01" "2024-01-22") }
      ∈ (discharge_readmit_save readmit_demo_store 1 readmit_demo_patient
          "2024-01-01" "2024-01-22" 2).patients := by
  have hdata : find_patient readmit_demo_store 1 = some readmit_demo_patient := rfl
  have happ := C3_discharge_readmit_amended readmit_demo_store 1 readmit_demo_patient
    "2024-01-01" "2024-01-22" 2 hdata
  refine ⟨hdata, ?_, rfl, rfl, ?_⟩
  · rw [happ.1]
    rfl
  · have hsrc := happ.2.2.2.2.2.2.2.2.2.2.2.2.2.2.2.2.2.2.2.2.2.2.2.1
      readmit_demo_patient (List.mem_singleton_self _) rfl
    simpa [readmit_demo_patient] using hsrc

/-! ## C2: precedence of the proposed default dose -/

theorem prev_map_step_eq (drug : String) (acc : Option ℝ) (r : CourseRow) :
    prev_map_step drug acc r =
      match r.dose_mg with
      | some v => if r.drug_name == some drug then some v else acc
      | none => acc := rfl

theorem prev_map_step_no_match (drug : String) (acc : Option ℝ) (r : CourseRow)
    (h : ¬ (r.drug_name == some drug && r.dose_mg.isSome) = true) :
    prev_map_step drug acc r = acc := by
  rw [prev_map_step_eq]
  cases hd : r.dose_mg with
  | none => rfl
  | some v =>
    show (if (r.drug_name == some drug) = true then some v else acc) = acc
    rw [if_neg]
    intro hbeq
    exact h (by simp [hbeq, hd])

theorem prev_map_step_hit (drug : String) (acc : Option ℝ) (r : CourseRow) (v : ℝ)
    (hname : (r.drug_name == some drug) = true) (hd : r.dose_mg = some v) :
    prev_map_step drug acc r = some v := by
  rw [prev_map_step_eq, hd]
  simp [hname]

theorem prev_map_foldl_const (rows : List CourseRow) (drug : String) (acc : Option ℝ)
    (h : rows.filter (fun r => r.drug_name == some drug && r.dose_mg.isSome) = []) :
    rows.foldl (prev_map_step drug) acc = acc := by
  induction rows generalizing acc with
  | nil => rfl
  | cons r rest ih =>
    rw [List.filter_cons] at h
    split at h
    · exact absurd h (by simp)
    · rename_i hpred
      rw [List.foldl_cons, prev_map_step_no_match drug acc r hpred]
      exact ih acc h

/-- When exactly one row of the prior-cycle result matches the drug with a
recorded dose, the dict lookup yields that row's dose. -/
theorem prev_map_get_eq_single (rows : List CourseRow) (drug : String)
    (r0 : CourseRow) (v : ℝ)
    (hflt : rows.filter (fun r => r.drug_name == some drug && r.dose_mg.isSome) = [r0])
    (hv : r0.dose_mg = some v) :
    prev_map_get rows drug = some v := by
  induction rows with
  | nil => exact absurd hflt (by simp)
  | cons r rest ih =>
    rw [List.filter_cons] at hflt
    show (r :: rest).foldl (prev_map_step drug) none = some v
    rw [List.foldl_cons]
    split at hflt
    · rename_i hpred
      rw [List.cons_eq_cons] at hflt
      obtain ⟨hr0, hrest⟩ := hflt
      have hname : (r.drug_name == some drug) = true := by
        have := hpred
        simp only [Bool.and_eq_true] at this
        exact this.1
      have hd : r.dose_mg = some v := by rw [hr0]; exact hv
      rw [prev_map_step_hit drug none r v hname hd]
      exact prev_map_foldl_const rest drug (some v) hrest
    · rename_i hpred
      rw [prev_map_step_no_match drug none r hpred]
      exact ih hflt

theorem default_dose_of_prev (prev : List CourseRow) (drug : String)
    (td : Option ℝ) (f v : ℝ) (h : prev_map_get prev drug = some v) :
    default_dose prev drug td f = v := by
  unfold default_dose
  rw [h]

theorem default_dose_of_template (prev : List CourseRow) (drug : String)
    (t f : ℝ) (h : prev_map_get prev drug = none) :
    default_dose prev drug (some t) f = t * f := by
  unfold default_dose
  rw [h]

theorem default_dose_no_template (prev : List CourseRow) (drug : String) (f : ℝ)
    (h : prev_map_get prev drug = none) :
    default_dose prev drug none f = 0 := by
  unfold default_dose
  rw [h]

/-- If no row of this patient's prior cycle carries a recorded dose for the
drug, the dict lookup yields `None`. -/
theorem prev_map_get_none (courses : List CourseRow) (pid : ℕ) (cycle_no : ℤ)
    (drug : String)
    (h : ∀ r ∈ courses, r.patient_id = pid → r.cycle_no = cycle_no - 1 →
      r.drug_name = some drug → r.dose_mg = none) :
    prev_map_get (prev_cycle_rows courses pid cycle_no) drug = none := by
  have hflt : (prev_cycle_rows courses pid cycle_no).filter
      (fun r => r.drug_name == some drug && r.dose_mg.isSome) = [] := by
    rw [prev_cycle_rows]
    split
    · rw [List.filter_filter]
      apply List.filter_eq_nil_iff.mpr
      intro r hr
      simp only [Bool.and_eq_true, beq_iff_eq]
      rintro ⟨⟨hn, hs⟩, hp, hc⟩
      rw [h r hr hp hc hn] at hs
      exact absurd hs (by simp)
    · rfl
  exact prev_map_foldl_const _ drug none hflt

/-- C2.  The proposed default dose for a drug of cycle `cycle_no` follows the
precedence: (a) when that drug (matched by name) has exactly one recorded
dose among this patient's rows of cycle `cycle_no - 1`, the default is that
absolute stored dose; (b) when it has none, the default is the
template-computed dose times the current dose-factor slider value. -/
theorem C2_prev_cycle_default_precedence (courses : List CourseRow) (pid : ℕ)
    (cycle_no : ℤ) (drug : String) (template_dose : Option ℝ) (factor : ℝ)
    (r0 : CourseRow) (v t : ℝ) :
    (2 ≤ cycle_no →
      courses.filter (fun r =>
          (r.drug_name == some drug && r.dose_mg.isSome) &&
          (r.patient_id == pid && r.cycle_no == cycle_no - 1)) = [r0] →
      r0.dose_mg = some v →
      default_dose (prev_cycle_rows courses pid cycle_no) drug template_dose factor
        = v) ∧
    ((∀ r ∈ courses, r.patient_id = pid → r.cycle_no = cycle_no - 1 →
        r.drug_name = some drug → r.dose_mg = none) →
      template_dose = some t →
      default_dose (prev_cycle_rows courses pid cycle_no) drug template_dose factor
        = t * factor) := by
  constructor
  · intro hn hflt hv
    have hprev : prev_cycle_rows courses pid cycle_no
        = courses.filter (fun r => r.patient_id == pid && r.cycle_no == cycle_no - 1) := by
      rw [prev_cycle_rows, if_pos (by omega)]
    have hflt2 : (prev_cycle_rows courses pid cycle_no).filter
        (fun r => r.drug_name == some drug && r.dose_mg.isSome) = [r0] := by
      rw [hprev, List.filter_filter]
      exact hflt
    exact default_dose_of_prev _ _ _ _ _ (prev_map_get_eq_single _ _ r0 v hflt2 hv)
  · intro hnone ht
    rw [ht]
    exact default_dose_of_template _ _ _ _ (prev_map_get_none courses pid cycle_no drug hnone)

/-- The cycle-1 Doxorubicin ledger row used in the C2 witness. -/
def prev_demo_row : CourseRow :=
  { patient_id := 1, cycle_no := 1, given_date := "2024-01-01",
    regimen_name := some "CHOP", drug_name := some "Doxorubicin",
    dose_mg := some 90, dose_factor := some 1 }

/-- Witness for C2: with a cycle-1 recorded dose of 90 mg for Doxorubicin,
the cycle-2 default is 90 mg, not a template re-derivation. -/
theorem C2_prev_cycle_default_precedence_witness :
    (2:ℤ) ≤ 2 ∧
    [prev_demo_row].filter (fun r =>
        (r.drug_name == some "Doxorubicin" && r.dose_mg.isSome) &&
        (r.patient_id == 1 && r.cycle_no == 2 - 1)) = [prev_demo_row] ∧
    prev_demo_row.dose_mg = some 90 ∧
    default_dose (prev_cycle_rows [prev_demo_row] 1 2) "Doxorubicin" (some 100) 0.75
      = 90 := by
  refine ⟨by norm_num, rfl, rfl, ?_⟩
  exact (C2_prev_cycle_default_precedence [prev_demo_row] 1 2 "Doxorubicin"
    (some 100) 0.75 prev_demo_row 90 0).1 (by norm_num) rfl rfl

/-! ## C6: committed dose = base dose × adjustment factor -/

/-- C6.  Every committed drug entry is stored with its final dose and the
slider factor; the final dose of an entry left at its default is
`base × factor` when the base (template) dose is defined and no prior-cycle
dose overrides it; and when the base dose is undefined the proposed default is
0, so the operator supplies an absolute value `v` directly, which is stored
as the dose unchanged (`v × 1`). -/
theorem C6_stored_dose (s : Store) (pid : ℕ) (cycle_no : ℤ)
    (given_date regimen_name : String) (entries : List DrugEntry) (factor : ℝ)
    (prev : List CourseRow) (drug : String) (b : ℝ)
    (hreg : ¬ regimen_name = "") :
    (∀ e ∈ entries,
      mk_course_row pid cycle_no given_date regimen_name factor e
        ∈ (save_cycle s pid cycle_no given_date regimen_name entries
            factor).1.chemo_courses ∧
      (mk_course_row pid cycle_no given_date regimen_name factor e).dose_mg
        = some e.final_dose ∧
      (mk_course_row pid cycle_no given_date regimen_name factor e).dose_factor
        = some factor) ∧
    (prev_map_get prev drug = none →
      default_dose prev drug (some b) factor = b * factor) ∧
    (prev_map_get prev drug = none →
      default_dose prev drug none factor = 0) ∧
    (∀ v : ℝ,
      (mk_course_row pid cycle_no given_date regimen_name factor
        { drug := drug, mode := "manual", final_dose := v }).dose_mg
      = some (v * 1)) := by
  refine ⟨?_, default_dose_of_template prev drug b factor,
    default_dose_no_template prev drug factor, by simp [mk_course_row]⟩
  intro e he
  have hlen : ¬ entries.length = 0 := by
    intro h0
    rw [List.length_eq_zero] at h0
    rw [h0] at he
    exact absurd he (List.not_mem_nil e)
  refine ⟨?_, rfl, rfl⟩
  rw [save_cycle, if_neg hreg, if_neg hlen]
  exact List.mem_append_right _ (List.mem_map_of_mem _ he)

/-- Empty store, for witnesses. -/
def empty_store : Store :=
  { hospitals := [], wards := [], patients := [],
    chemo_courses := [], chemo_assessments := [] }

/-- Witness for C6: one Doxorubicin entry at base 100 mg and factor 0.75 (its
default final dose is 75 mg) committed under regimen CHOP. -/
theorem C6_stored_dose_witness :
    ¬ ("CHOP" = "") ∧
    prev_map_get [] "Doxorubicin" = none ∧
    default_dose [] "Doxorubicin" (some 100) 0.75 = 100 * 0.75 ∧
    mk_course_row 1 1 "2024-01-01" "CHOP" 0.75
        { drug := "Doxorubicin", mode := "per_m2", dose_per_m2 := some 50,
          final_dose := 75 }
      ∈ (save_cycle empty_store 1 1 "2024-01-01" "CHOP"
          [ { drug := "Doxorubicin", mode := "per_m2", dose_per_m2 := some 50,
              final_dose := 75 } ] 0.75).1.chemo_courses := by
  have hreg : ¬ ("CHOP" = "") := by decide
  have happ := C6_stored_dose empty_store 1 1 "2024-01-01" "CHOP"
    [ { drug := "Doxorubicin", mode := "per_m2", dose_per_m2 := some 50,
        final_dose := 75 } ] 0.75 [] "Doxorubicin" 100 hreg
  refine ⟨hreg, rfl, happ.2.1 rfl, ?_⟩
  exact (happ.1 _ (List.mem_singleton_self _)).1

/-! ## C8: template lookup miss, and the broken manual-entry fallback

The lookup-miss half of the flow is intact code and is evaluated below.  The
claimed manual per-drug fallback is the `else:` block of `if rows:` at
app.py line 1406, whose body (lines 1407-1449) sits at a smaller indentation
than the `else:` itself; Python raises `IndentationError` at line 1407 when
parsing the module, so that fallback flow can never execute and is not
modelled here. -/

/-- C8 (code bug).  At the failing input — the off-template regimen name
"FLAG-IDA" — the intact part of the code signals the miss as a `none` lookup
result (a recognised condition, not an exception) and the dose computation
yields no template rows, which is exactly the state that would select the
manual-entry branch.  That branch, app.py lines 1406-1449, does not parse
(its body is dedented below its `else:`), so the supported manual per-drug
entry flow the claim describes cannot run. -/
theorem C8_template_miss_code_bug :
    get_chemo_template_by_name seed_chemo_templates "FLAG-IDA" = none ∧
    compute_doses_for_template seed_chemo_templates "FLAG-IDA" none none
      = ([], calc_bsa none none) ∧
    (compute_doses_for_template seed_chemo_templates "FLAG-IDA" none none).1.length
      = 0 :=
  ⟨rfl, rfl, rfl⟩

/-! ## C5: the CHOP end-to-end scenario at 70 kg / 170 cm -/

theorem chop_bsa_lb : (1.81807:ℝ) ≤ Real.sqrt (170 * 70 / 3600) := by
  rw [Real.le_sqrt' (by norm_num)]
  norm_num

theorem chop_bsa_ub : Real.sqrt (170 * 70 / 3600) < 1.81819 := by
  rw [Real.sqrt_lt' (by norm_num)]
  norm_num

theorem calc_bsa_70_170 :
    calc_bsa (some 70) (some 170) = some (Real.sqrt (170 * 70 / 3600)) := by
  rw [calc_bsa, if_neg]
  · rfl
  · push_neg
    refine ⟨by norm_num [Option.getD_some], by norm_num [Option.getD_some]⟩

/-- One-decimal rounding by bracketing: when `n ≤ 10x + 1/2 < n + 1`, the
rounded value is `n / 10`. -/
theorem round1_eq_of_bounds (x : ℝ) (n : ℤ)
    (hlo : (n:ℝ) ≤ 10 * x + 1/2) (hhi : 10 * x + 1/2 < (n:ℝ) + 1) :
    round1 x = (n:ℝ) / 10 := by
  rw [round1, round_eq, Int.floor_eq_iff.mpr ⟨hlo, hhi⟩]

/-- C5.  For regimen CHOP at weight 70 kg and height 170 cm the template doses
are Cyclophosphamide 1363.6 mg, Doxorubicin 90.9 mg, Vincristine 2.0 mg
(capped before rounding), Prednisolone 100 mg; and with dose factor 0.75 and
no prior cycle the proposed doses are exactly 75% of those template values —
in particular Vincristine 1.5 mg, because the cap applies to the template
dose first and the factor only afterwards. -/
theorem C5_chop_end_to_end :
    (compute_doses_for_template seed_chemo_templates "CHOP"
        (some 70) (some 170)).1.map (fun r => r.template_dose_mg)
      = [some 1363.6, some 90.9, some 2, some 100] ∧
    (compute_doses_for_template seed_chemo_templates "CHOP"
        (some 70) (some 170)).1.map
        (fun r => default_dose [] r.drug_name r.template_dose_mg 0.75)
      = [1363.6 * 0.75, 90.9 * 0.75, 2 * 0.75, 100 * 0.75] ∧
    default_dose [] "Vincristine" (some 2) 0.75 = 1.5 := by
  have hlb := chop_bsa_lb
  have hub := chop_bsa_ub
  have hB0 : ¬ Real.sqrt (170 * 70 / 3600) = 0 := by
    intro h0
    rw [h0] at hlb
    norm_num at hlb
  have hrows : (compute_doses_for_template seed_chemo_templates "CHOP"
      (some 70) (some 170)).1
      = List.map (fun item => compute_row item
          (calc_bsa (some 70) (some 170)) (some 70))
        [ { drug := "Cyclophosphamide", mode := "per_m2", dose_per_m2 := some 750 },
          { drug := "Doxorubicin", mode := "per_m2", dose_per_m2 := some 50 },
          { drug := "Vincristine", mode := "per_m2", dose_per_m2 := some 1.4,
            max_mg := some 2 },
          { drug := "Prednisolone", mode := "fixed", fixed_dose_mg := some 100 } ] :=
    rfl
  have ed1 : (dose_capped
      { drug := "Cyclophosphamide", mode := "per_m2", dose_per_m2 := some 750 }
      (some (Real.sqrt (170 * 70 / 3600))) (some 70))
      = some (750 * Real.sqrt (170 * 70 / 3600)) := by
    rw [dose_capped_of_max_none _ rfl,
      dose_raw_per_m2 _ rfl _ _ (Real.sqrt (170 * 70 / 3600)) rfl hB0]
    rfl
  have ed2 : (dose_capped
      { drug := "Doxorubicin", mode := "per_m2", dose_per_m2 := some 50 }
      (some (Real.sqrt (170 * 70 / 3600))) (some 70))
      = some (50 * Real.sqrt (170 * 70 / 3600)) := by
    rw [dose_capped_of_max_none _ rfl,
      dose_raw_per_m2 _ rfl _ _ (Real.sqrt (170 * 70 / 3600)) rfl hB0]
    rfl
  have ed3 : (dose_capped
      { drug := "Vincristine", mode := "per_m2", dose_per_m2 := some 1.4,
        max_mg := some 2 }
      (some (Real.sqrt (170 * 70 / 3600))) (some 70))
      = some 2 := by
    rw [dose_capped_of_max_some _ 2 rfl,
      dose_raw_per_m2 _ rfl _ _ (Real.sqrt (170 * 70 / 3600)) rfl hB0]
    show some (min (1.4 * Real.sqrt (170 * 70 / 3600)) 2) = some 2
    rw [min_eq_right (by nlinarith [hlb])]
  have ed4 : (dose_capped
      { drug := "Prednisolone", mode := "fixed", fixed_dose_mg := some 100 }
      (some (Real.sqrt (170 * 70 / 3600))) (some 70))
      = some 100 := by
    rw [dose_capped_of_max_none _ rfl, dose_raw_fixed _ rfl]
  have hr1 : round1 (750 * Real.sqrt (170 * 70 / 3600)) = 1363.6 := by
    rw [round1_eq_of_bounds _ 13636 (by push_cast; nlinarith [hlb])
      (by push_cast; nlinarith [hub])]
    norm_num
  have hr2 : round1 (50 * Real.sqrt (170 * 70 / 3600)) = 90.9 := by
    rw [round1_eq_of_bounds _ 909 (by push_cast; nlinarith [hlb])
      (by push_cast; nlinarith [hub])]
    norm_num
  have hr3 : round1 (2:ℝ) = 2 := by
    rw [round1_eq_of_bounds _ 20 (by norm_num) (by norm_num)]
    norm_num
  have hr4 : round1 (100:ℝ) = 100 := by
    rw [round1_eq_of_bounds _ 1000 (by norm_num) (by norm_num)]
    norm_num
  refine ⟨?_, ?_, ?_⟩
  · rw [hrows, calc_bsa_70_170]
    simp only [List.map_cons, List.map_nil, compute_row]
    rw [ed1, ed2, ed3, ed4]
    simp only [Option.map_some']
    rw [hr1, hr2, hr3, hr4]
  · rw [hrows, calc_bsa_70_170]
    simp only [List.map_cons, List.map_nil, compute_row]
    rw [ed1, ed2, ed3, ed4]
    simp only [Option.map_some']
    rw [hr1, hr2, hr3, hr4]
    rw [default_dose_of_template [] "Cyclophosphamide" 1363.6 0.75 rfl,
      default_dose_of_template [] "Doxorubicin" 90.9 0.75 rfl,
      default_dose_of_template [] "Vincristine" 2 0.75 rfl,
      default_dose_of_template [] "Prednisolone" 100 0.75 rfl]
  · rw [default_dose_of_template [] "Vincristine" 2 0.75 rfl]
    norm_num

end AdmissionsPlanner
